import Mathlib

/-!
Shallow embedding of the call-matching signaling server (`src/server.js`).

The server keeps three in-memory stores:
  agents       : JS object mapping socket id to a record with name and busy flag
  waitingQueue : JS array of supplier socket ids
  pairings     : JS object mapping id to id, both directions written on pair

JS objects with string keys preserve insertion order; assignment to an
existing key replaces the value in place, a new key is appended, and
`delete` removes the key.  We model them as insertion-ordered association
lists with `upsert` / `eraseKey` / `lookupKV`.  Connection identifiers are
strings; JS truthiness tests on an id (`if (supplier)`, `if (nextSupplier)`)
are modelled as the id being nonempty.

Each socket event handler is a function from the server state (plus the
sender id and payload) to the new state together with the list of outbound
emissions `(target id, message)`.
-/

abbrev Sid := String

structure AgentInfo where
  name : String
  busy : Bool
deriving DecidableEq

structure ServerState where
  agents : List (Sid × AgentInfo)
  waitingQueue : List Sid
  pairings : List (Sid × Sid)
deriving DecidableEq

/-- Property lookup on a JS object modelled as an association list. -/
def lookupKV {α : Type} (m : List (Sid × α)) (k : Sid) : Option α :=
  match m with
  | [] => none
  | (k', v) :: rest => if k' == k then some v else lookupKV rest k

/-- Property assignment on a JS object: replace in place if the key exists,
append otherwise. -/
def upsert {α : Type} (m : List (Sid × α)) (k : Sid) (v : α) : List (Sid × α) :=
  match m with
  | [] => [(k, v)]
  | (k', v') :: rest => if k' == k then (k, v) :: rest else (k', v') :: upsert rest k v

/-- The JS `delete` operator: remove the key. -/
def eraseKey {α : Type} (m : List (Sid × α)) (k : Sid) : List (Sid × α) :=
  match m with
  | [] => []
  | (k', v') :: rest => if k' == k then eraseKey rest k else (k', v') :: eraseKey rest k

/-- The in-place mutation `agents[id].busy = b`. -/
def setBusy (m : List (Sid × AgentInfo)) (k : Sid) (b : Bool) : List (Sid × AgentInfo) :=
  match m with
  | [] => []
  | (k', r) :: rest =>
    if k' == k then (k', { r with busy := b }) :: setBusy rest k b
    else (k', r) :: setBusy rest k b

/-- First key of `m` whose record has `busy === false` (JS
`Object.keys(agents).find(id => agents[id].busy === false)`). -/
def findFreeKey (m : List (Sid × AgentInfo)) : Option Sid :=
  match m with
  | [] => none
  | (k, r) :: rest => if r.busy == false then some k else findFreeKey rest

/-- The server's `findFreeAgent()`. -/
def findFreeAgent (st : ServerState) : Option Sid :=
  findFreeKey st.agents

/-- Outbound socket emissions. -/
inductive Msg where
  | agentRegistered (name : String) (queueLength : Nat)
  | queueStatus (position : Nat)
  | incomingCall (supplierId : Sid)
  | callRequested (agentId : Sid)
  | callAccepted (agentId : Sid)
  | callStarted (supplierId : Sid)
  | callEnded (byId : Sid)
  | agentDisconnected
  | supplierDisconnected (supplierId : Sid)
  | webrtcOffer (fromId : Sid) (sdp : String)
  | webrtcAnswer (fromId : Sid) (sdp : String)
  | webrtcCandidate (fromId : Sid) (candidate : String)
deriving DecidableEq

/-- Handler for `agent-register` (server.js lines 32-36).  The display name
defaults via JS `name || ...` (so a missing or empty name falls back to
a name derived from the socket id). -/
def agentRegister (st : ServerState) (sid : Sid) (name : Option String) :
    ServerState × List (Sid × Msg) :=
  let nm :=
    match name with
    | some n => if n == "" then "Agent-" ++ sid.take 5 else n
    | none => "Agent-" ++ sid.take 5
  ({ st with agents := upsert st.agents sid { name := nm, busy := false } },
   [(sid, Msg.agentRegistered nm st.waitingQueue.length)])

/-- Handler for `supplier-call` (server.js lines 39-59). -/
def supplierCall (st : ServerState) (sid : Sid) : ServerState × List (Sid × Msg) :=
  if sid ∈ st.waitingQueue then
    (st, [(sid, Msg.queueStatus (st.waitingQueue.indexOf sid + 1))])
  else
    match findFreeAgent st with
    | some freeAgentId =>
      ({ st with
          agents := setBusy st.agents freeAgentId true,
          pairings := upsert (upsert st.pairings sid freeAgentId) freeAgentId sid },
       [(freeAgentId, Msg.incomingCall sid), (sid, Msg.callRequested freeAgentId)])
    | none =>
      ({ st with waitingQueue := st.waitingQueue ++ [sid] },
       [(sid, Msg.queueStatus (st.waitingQueue.length + 1))])

/-- Handler for `agent-accept` (server.js lines 62-71). -/
def agentAccept (st : ServerState) (sid supplierId : Sid) : ServerState × List (Sid × Msg) :=
  if (lookupKV st.agents sid).isSome then
    ({ st with
        pairings := upsert (upsert st.pairings supplierId sid) sid supplierId,
        agents := setBusy st.agents sid true },
     [(supplierId, Msg.callAccepted sid), (sid, Msg.callStarted supplierId)])
  else (st, [])

/-- Handler for `agent-reject` (server.js lines 74-87). -/
def agentReject (st : ServerState) (sid supplierId : Sid) : ServerState × List (Sid × Msg) :=
  let agents1 := if (lookupKV st.agents sid).isSome then setBusy st.agents sid false else st.agents
  let st1 := { st with agents := agents1 }
  match findFreeAgent st1 with
  | some freeAgent =>
    ({ st1 with
        agents := setBusy st1.agents freeAgent true,
        pairings := upsert (upsert st1.pairings supplierId freeAgent) freeAgent supplierId },
     [(freeAgent, Msg.incomingCall supplierId), (supplierId, Msg.callRequested freeAgent)])
  | none =>
    let q :=
      if supplierId ∈ st1.waitingQueue then st1.waitingQueue
      else st1.waitingQueue ++ [supplierId]
    ({ st1 with waitingQueue := q },
     [(supplierId, Msg.queueStatus (q.indexOf supplierId + 1))])

/-- The teardown portion of the `end-call` handler (server.js lines 104-111):
clear both busy flags when the ids are registered agents, delete both
pairing entries when present. -/
def endCallClear (st : ServerState) (sid partnerId : Sid) : ServerState :=
  let agents1 := if (lookupKV st.agents sid).isSome then setBusy st.agents sid false else st.agents
  let agents2 := if (lookupKV agents1 partnerId).isSome then setBusy agents1 partnerId false else agents1
  let pairings1 := if (lookupKV st.pairings sid).isSome then eraseKey st.pairings sid else st.pairings
  let pairings2 :=
    if (lookupKV pairings1 partnerId).isSome then eraseKey pairings1 partnerId else pairings1
  { st with agents := agents2, pairings := pairings2 }

/-- The promotion portion of the `end-call` handler (server.js lines 114-124):
pop the queue front for the first free agent, guarded by the JS truthiness
check on the popped id. -/
def endCallPromote (st1 : ServerState) : ServerState × List (Sid × Msg) :=
  match findFreeAgent st1, st1.waitingQueue with
  | some freeAgent, nextSupplier :: rest =>
    if nextSupplier ≠ "" then
      ({ st1 with
          waitingQueue := rest,
          agents := setBusy st1.agents freeAgent true,
          pairings := upsert (upsert st1.pairings freeAgent nextSupplier) nextSupplier freeAgent },
       [(freeAgent, Msg.incomingCall nextSupplier), (nextSupplier, Msg.callRequested freeAgent)])
    else ({ st1 with waitingQueue := rest }, [])
  | _, _ => (st1, [])

/-- Handler for `end-call` (server.js lines 103-125). -/
def endCall (st : ServerState) (sid partnerId : Sid) : ServerState × List (Sid × Msg) :=
  let st1 := endCallClear st sid partnerId
  let res := endCallPromote st1
  (res.1, (partnerId, Msg.callEnded sid) :: res.2)

/-- Handler for `disconnect` (server.js lines 128-162). -/
def disconnectHandler (st : ServerState) (sid : Sid) : ServerState × List (Sid × Msg) :=
  if (lookupKV st.agents sid).isSome then
    let res :=
      match lookupKV st.pairings sid with
      | some supplier =>
        if supplier ≠ "" then
          let stA := { st with pairings := eraseKey st.pairings supplier }
          match findFreeAgent stA with
          | some freeAgent =>
            ({ stA with
                agents := setBusy stA.agents freeAgent true,
                pairings := upsert (upsert stA.pairings freeAgent supplier) supplier freeAgent },
             [(supplier, Msg.agentDisconnected), (freeAgent, Msg.incomingCall supplier),
              (supplier, Msg.callRequested freeAgent)])
          | none =>
            let q := stA.waitingQueue ++ [supplier]
            ({ stA with waitingQueue := q },
             [(supplier, Msg.agentDisconnected),
              (supplier, Msg.queueStatus (q.indexOf supplier + 1))])
        else (st, [])
      | none => (st, [])
    ({ res.1 with agents := eraseKey res.1.agents sid, pairings := eraseKey res.1.pairings sid },
     res.2)
  else
    let q := st.waitingQueue.erase sid
    match lookupKV st.pairings sid with
    | some pairedAgent =>
      if pairedAgent ≠ "" then
        let agents1 :=
          if (lookupKV st.agents pairedAgent).isSome then setBusy st.agents pairedAgent false
          else st.agents
        ({ agents := agents1,
           waitingQueue := q,
           pairings := eraseKey (eraseKey st.pairings pairedAgent) sid },
         [(pairedAgent, Msg.supplierDisconnected sid)])
      else ({ st with waitingQueue := q, pairings := eraseKey st.pairings sid }, [])
    | none => ({ st with waitingQueue := q, pairings := eraseKey st.pairings sid }, [])

/-- Inbound events, tagged with the sender's socket id. -/
inductive Event where
  | agentRegister (sid : Sid) (name : Option String)
  | supplierCall (sid : Sid)
  | agentAccept (sid supplierId : Sid)
  | agentReject (sid supplierId : Sid)
  | webrtcOffer (sid toId sdp : String)
  | webrtcAnswer (sid toId sdp : String)
  | webrtcCandidate (sid toId candidate : String)
  | endCall (sid partnerId : Sid)
  | disconnect (sid : Sid)

/-- One handled event: the next state and the emissions it produced. -/
def step (st : ServerState) : Event → ServerState × List (Sid × Msg)
  | Event.agentRegister sid name => agentRegister st sid name
  | Event.supplierCall sid => supplierCall st sid
  | Event.agentAccept sid supplierId => agentAccept st sid supplierId
  | Event.agentReject sid supplierId => agentReject st sid supplierId
  | Event.webrtcOffer sid toId sdp => (st, [(toId, Msg.webrtcOffer sid sdp)])
  | Event.webrtcAnswer sid toId sdp => (st, [(toId, Msg.webrtcAnswer sid sdp)])
  | Event.webrtcCandidate sid toId candidate => (st, [(toId, Msg.webrtcCandidate sid candidate)])
  | Event.endCall sid partnerId => endCall st sid partnerId
  | Event.disconnect sid => disconnectHandler st sid

/-- The empty server state at process start. -/
def initialState : ServerState :=
  { agents := [], waitingQueue := [], pairings := [] }

/-- Run a sequence of events from a state, keeping only the final state. -/
def runEvents (st : ServerState) (es : List Event) : ServerState :=
  es.foldl (fun s e => (step s e).1) st

/-- A state is reachable when some event sequence from the initial state
produces it; such states are exactly the states at rest between handled
events. -/
def Reachable (st : ServerState) : Prop :=
  ∃ es : List Event, runEvents initialState es = st

/-- Pairing-table symmetry, as the spec states it. -/
def PairingsSymmetric (st : ServerState) : Prop :=
  ∀ k v : Sid, lookupKV st.pairings k = some v → lookupKV st.pairings v = some k

/-- Busy-iff-paired, as the spec states it. -/
def BusyIffPaired (st : ServerState) : Prop :=
  ∀ (a : Sid) (r : AgentInfo), lookupKV st.agents a = some r →
    (r.busy = true ↔ (lookupKV st.pairings a).isSome = true)

/-- Queue/pairing exclusivity, as the spec states it. -/
def QueuePairingExclusive (st : ServerState) : Prop :=
  ∀ k : Sid, k ∈ st.waitingQueue → lookupKV st.pairings k = none

/-- Queue uniqueness, as the spec states it. -/
def QueueUnique (st : ServerState) : Prop :=
  st.waitingQueue.Nodup

/-! Concrete traces and states used to evaluate the handlers. -/

/-- Trace: register agent A, supplier S calls (paired with A), register agent B,
S calls again.  The second call re-pairs S with B and leaves A's old entry
one-sided. -/
def traceC1 : List Event :=
  [Event.agentRegister "A" (some "Alice"),
   Event.supplierCall "S",
   Event.agentRegister "B" (some "Bob"),
   Event.supplierCall "S"]

/-- Trace: register agent A, supplier S calls; A is the sole agent and is
paired with S. -/
def traceC2pre : List Event :=
  [Event.agentRegister "A" (some "Alice"), Event.supplierCall "S"]

/-- The state reached by `traceC2pre`. -/
def stC2 : ServerState := runEvents initialState traceC2pre

/-- Trace: register agents A and B, then B issues supplier-call and is paired
as the supplier side with A. -/
def traceC3 : List Event :=
  [Event.agentRegister "A" (some "Alice"),
   Event.agentRegister "B" (some "Bob"),
   Event.supplierCall "B"]

/-- Trace: register agent A, supplier S calls (paired), S calls again while A
is busy and is enqueued while still paired. -/
def traceC4 : List Event :=
  [Event.agentRegister "A" (some "Alice"),
   Event.supplierCall "S",
   Event.supplierCall "S"]

/-- Trace: as `traceC4`, then A disconnects; the disconnect requeue pushes S
a second time. -/
def traceC5 : List Event :=
  [Event.agentRegister "A" (some "Alice"),
   Event.supplierCall "S",
   Event.supplierCall "S",
   Event.disconnect "A"]

/-- Witness state: one free agent A, empty queue, empty pairings. -/
def stW6 : ServerState :=
  { agents := [("A", { name := "a", busy := false })], waitingQueue := [], pairings := [] }

/-- Witness state: agent A busy and paired with S1 while S2 waits in the queue. -/
def stW7 : ServerState :=
  { agents := [("A", { name := "a", busy := true })],
    waitingQueue := ["S2"],
    pairings := [("S1", "A"), ("A", "S1")] }

/-- Witness state: agent A busy and paired with S, S3 queued; no agent free. -/
def stW5 : ServerState :=
  { agents := [("A", { name := "a", busy := true })],
    waitingQueue := ["S3"],
    pairings := [("S", "A"), ("A", "S")] }

/-- Witness state: two free agents A and B registered, nothing else. -/
def stW3 : ServerState :=
  { agents := [("A", { name := "Alice", busy := false }), ("B", { name := "Bob", busy := false })],
    waitingQueue := [], pairings := [] }

/-- Witness state: agent A busy and paired with S, empty queue. -/
def stW4 : ServerState :=
  { agents := [("A", { name := "a", busy := true })],
    waitingQueue := [],
    pairings := [("S", "A"), ("A", "S")] }

/-! Lemmas about the association-list primitives. -/

theorem lookupKV_upsert_self {α : Type} (m : List (Sid × α)) (k : Sid) (v : α) :
    lookupKV (upsert m k v) k = some v := by
  induction m with
  | nil => simp [upsert, lookupKV]
  | cons hd tl ih =>
    obtain ⟨a, b⟩ := hd
    by_cases h2 : a = k
    · subst h2
      simp [upsert, lookupKV]
    · simp [upsert, lookupKV, h2, ih]

theorem lookupKV_upsert_ne {α : Type} (m : List (Sid × α)) (k k' : Sid) (v : α)
    (h : k' ≠ k) : lookupKV (upsert m k v) k' = lookupKV m k' := by
  induction m with
  | nil => simp [upsert, lookupKV, Ne.symm h]
  | cons hd tl ih =>
    obtain ⟨a, b⟩ := hd
    by_cases h2 : a = k
    · subst h2
      simp [upsert, lookupKV, Ne.symm h]
    · simp [upsert, lookupKV, h2, ih]

theorem lookupKV_eraseKey_self {α : Type} (m : List (Sid × α)) (k : Sid) :
    lookupKV (eraseKey m k) k = none := by
  induction m with
  | nil => simp [eraseKey, lookupKV]
  | cons hd tl ih =>
    obtain ⟨a, b⟩ := hd
    by_cases h2 : a = k
    · simp [eraseKey, h2, ih]
    · simp [eraseKey, lookupKV, h2, ih]

theorem lookupKV_eraseKey_ne {α : Type} (m : List (Sid × α)) (k k' : Sid)
    (h : k' ≠ k) : lookupKV (eraseKey m k) k' = lookupKV m k' := by
  induction m with
  | nil => simp [eraseKey]
  | cons hd tl ih =>
    obtain ⟨a, b⟩ := hd
    by_cases h2 : a = k
    · subst h2
      simp [eraseKey, lookupKV, Ne.symm h, ih]
    · simp [eraseKey, lookupKV, h2, ih]

theorem lookupKV_setBusy_self (m : List (Sid × AgentInfo)) (k : Sid) (b : Bool) :
    lookupKV (setBusy m k b) k = (lookupKV m k).map (fun r => { r with busy := b }) := by
  induction m with
  | nil => simp [setBusy, lookupKV]
  | cons hd tl ih =>
    obtain ⟨a, r⟩ := hd
    by_cases h2 : a = k
    · subst h2
      simp [setBusy, lookupKV]
    · simp [setBusy, lookupKV, h2, ih]

theorem lookupKV_setBusy_ne (m : List (Sid × AgentInfo)) (k k' : Sid) (b : Bool)
    (h : k' ≠ k) : lookupKV (setBusy m k b) k' = lookupKV m k' := by
  induction m with
  | nil => simp [setBusy, lookupKV]
  | cons hd tl ih =>
    obtain ⟨a, r⟩ := hd
    by_cases h2 : a = k
    · subst h2
      simp [setBusy, lookupKV, Ne.symm h, ih]
    · simp [setBusy, lookupKV, h2, ih]

/-! Theorems for the claims. -/

/-- Claim C6: for every supplier-call event from a not-already-queued supplier
when a free agent exists, that agent's busy flag is set true, the pairing
table gains both mutual entries, the agent is sent incoming-call with the
supplier id, the supplier is sent call-requested with the agent id, and the
supplier is not added to the waiting queue. -/
theorem supplierCall_pairs_free_agent (st : ServerState) (s g : Sid) (rec : AgentInfo)
    (hq : s ∉ st.waitingQueue) (hg : findFreeAgent st = some g)
    (hrec : lookupKV st.agents g = some rec) :
    lookupKV (supplierCall st s).1.agents g = some { rec with busy := true } ∧
    lookupKV (supplierCall st s).1.pairings s = some g ∧
    lookupKV (supplierCall st s).1.pairings g = some s ∧
    (supplierCall st s).1.waitingQueue = st.waitingQueue ∧
    (supplierCall st s).2 = [(g, Msg.incomingCall s), (s, Msg.callRequested g)] := by
  have hres : supplierCall st s =
      ({ st with agents := setBusy st.agents g true,
                 pairings := upsert (upsert st.pairings s g) g s },
       [(g, Msg.incomingCall s), (s, Msg.callRequested g)]) := by
    simp only [supplierCall, if_neg hq, hg]
  rw [hres]
  refine ⟨?_, ?_, ?_, rfl, rfl⟩
  · rw [lookupKV_setBusy_self, hrec]
    rfl
  · by_cases hsg : s = g
    · subst hsg
      exact lookupKV_upsert_self _ _ _
    · rw [lookupKV_upsert_ne _ _ _ _ hsg]
      exact lookupKV_upsert_self _ _ _
  · exact lookupKV_upsert_self _ _ _

/-- Witness for C6 at a concrete input: one free agent A and a fresh
supplier S. -/
theorem supplierCall_pairs_free_agent_witness :
    ("S" ∉ stW6.waitingQueue) ∧ findFreeAgent stW6 = some "A" ∧
    lookupKV stW6.agents "A" = some { name := "a", busy := false } ∧
    (lookupKV (supplierCall stW6 "S").1.agents "A" = some { name := "a", busy := true } ∧
     lookupKV (supplierCall stW6 "S").1.pairings "S" = some "A" ∧
     lookupKV (supplierCall stW6 "S").1.pairings "A" = some "S" ∧
     (supplierCall stW6 "S").1.waitingQueue = stW6.waitingQueue ∧
     (supplierCall stW6 "S").2 = [("A", Msg.incomingCall "S"), ("S", Msg.callRequested "A")]) :=
  ⟨by decide, by decide, by decide,
   supplierCall_pairs_free_agent stW6 "S" "A" { name := "a", busy := false }
     (by decide) (by decide) (by decide)⟩

/-- Claim C8: supplier-call from an already-queued supplier is idempotent:
the whole state is unchanged and its current 1-based queue position is
re-emitted. -/
theorem supplierCall_idempotent_when_queued (st : ServerState) (s : Sid)
    (h : s ∈ st.waitingQueue) :
    supplierCall st s = (st, [(s, Msg.queueStatus (st.waitingQueue.indexOf s + 1))]) := by
  simp [supplierCall, h]

/-- Witness for C8 at a concrete input: S3 already queued. -/
theorem supplierCall_idempotent_when_queued_witness :
    ("S3" ∈ stW5.waitingQueue) ∧
    supplierCall stW5 "S3" = (stW5, [("S3", Msg.queueStatus (stW5.waitingQueue.indexOf "S3" + 1))]) :=
  ⟨by decide, supplierCall_idempotent_when_queued stW5 "S3" (by decide)⟩

/-- Claim C9: agent-accept from a sender that is not a registered agent is a
silent no-op: the state is unchanged and no message is emitted. -/
theorem agentAccept_unknown_agent_noop (st : ServerState) (sid supplierId : Sid)
    (h : lookupKV st.agents sid = none) :
    agentAccept st sid supplierId = (st, []) := by
  simp [agentAccept, h]

/-- Witness for C9 at a concrete input: nobody is registered in the initial
state. -/
theorem agentAccept_unknown_agent_noop_witness :
    lookupKV initialState.agents "X" = none ∧
    agentAccept initialState "X" "S" = (initialState, []) :=
  ⟨by decide, agentAccept_unknown_agent_noop initialState "X" "S" (by decide)⟩

/-- Claim C10: end-call tears down unconditionally: whatever the actual
pairing relation, the handler clears the named partner's busy flag when it is
a registered agent, deletes the pairing entries keyed by the caller and by
the partner, and emits call-ended naming the caller to the partner; nothing
checks that the partner is the caller's current partner. -/
theorem endCall_unconditional_teardown (st : ServerState) (sid pid : Sid) (rec : AgentInfo)
    (hrec : lookupKV st.agents pid = some rec) :
    lookupKV (endCallClear st sid pid).agents pid = some { rec with busy := false } ∧
    lookupKV (endCallClear st sid pid).pairings sid = none ∧
    lookupKV (endCallClear st sid pid).pairings pid = none ∧
    (endCall st sid pid).2.head? = some (pid, Msg.callEnded sid) := by
  refine ⟨?_, ?_, ?_, by simp [endCall]⟩
  · show lookupKV
      (if (lookupKV
            (if (lookupKV st.agents sid).isSome then setBusy st.agents sid false else st.agents)
            pid).isSome
       then setBusy
            (if (lookupKV st.agents sid).isSome then setBusy st.agents sid false else st.agents)
            pid false
       else if (lookupKV st.agents sid).isSome then setBusy st.agents sid false else st.agents)
      pid = some { rec with busy := false }
    have h1 : lookupKV
        (if (lookupKV st.agents sid).isSome then setBusy st.agents sid false else st.agents)
        pid = some rec ∨
        lookupKV
        (if (lookupKV st.agents sid).isSome then setBusy st.agents sid false else st.agents)
        pid = some { rec with busy := false } := by
      by_cases hs : (lookupKV st.agents sid).isSome
      · by_cases hsp : sid = pid
        · subst hsp
          right
          rw [if_pos hs, lookupKV_setBusy_self, hrec]
          rfl
        · left
          rw [if_pos hs, lookupKV_setBusy_ne _ _ _ _ (fun hh => hsp hh.symm)]
          exact hrec
      · left
        rw [if_neg hs]
        exact hrec
    rcases h1 with h1 | h1 <;>
      rw [if_pos (by rw [h1]; rfl), lookupKV_setBusy_self, h1] <;> rfl
  · show lookupKV
      (if (lookupKV
            (if (lookupKV st.pairings sid).isSome then eraseKey st.pairings sid else st.pairings)
            pid).isSome
       then eraseKey
            (if (lookupKV st.pairings sid).isSome then eraseKey st.pairings sid else st.pairings)
            pid
       else if (lookupKV st.pairings sid).isSome then eraseKey st.pairings sid else st.pairings)
      sid = none
    have h1 : lookupKV
        (if (lookupKV st.pairings sid).isSome then eraseKey st.pairings sid else st.pairings)
        sid = none := by
      by_cases hs : (lookupKV st.pairings sid).isSome
      · rw [if_pos hs]
        exact lookupKV_eraseKey_self _ _
      · rw [if_neg hs]
        exact Option.not_isSome_iff_eq_none.mp hs
    by_cases hp : (lookupKV
        (if (lookupKV st.pairings sid).isSome then eraseKey st.pairings sid else st.pairings)
        pid).isSome
    · rw [if_pos hp]
      by_cases hps : sid = pid
      · subst hps
        exact lookupKV_eraseKey_self _ _
      · rw [lookupKV_eraseKey_ne _ _ _ hps]
        exact h1
    · rw [if_neg hp]
      exact h1
  · show lookupKV
      (if (lookupKV
            (if (lookupKV st.pairings sid).isSome then eraseKey st.pairings sid else st.pairings)
            pid).isSome
       then eraseKey
            (if (lookupKV st.pairings sid).isSome then eraseKey st.pairings sid else st.pairings)
            pid
       else if (lookupKV st.pairings sid).isSome then eraseKey st.pairings sid else st.pairings)
      pid = none
    by_cases hp : (lookupKV
        (if (lookupKV st.pairings sid).isSome then eraseKey st.pairings sid else st.pairings)
        pid).isSome
    · rw [if_pos hp]
      exact lookupKV_eraseKey_self _ _
    · rw [if_neg hp]
      exact Option.not_isSome_iff_eq_none.mp hp

/-- Witness for C10 at a concrete input: an unrelated connection C ends a
call naming busy agent A, who is actually paired with S1. -/
theorem endCall_unconditional_teardown_witness :
    lookupKV stW7.agents "A" = some { name := "a", busy := true } ∧
    (lookupKV (endCallClear stW7 "C" "A").agents "A" = some { name := "a", busy := false } ∧
     lookupKV (endCallClear stW7 "C" "A").pairings "C" = none ∧
     lookupKV (endCallClear stW7 "C" "A").pairings "A" = none ∧
     (endCall stW7 "C" "A").2.head? = some ("A", Msg.callEnded "C")) :=
  ⟨by decide,
   endCall_unconditional_teardown stW7 "C" "A" { name := "a", busy := true } (by decide)⟩

/-- Claim C7: for every end-call event, after the busy flags are cleared and
both pairing entries deleted, if some agent is free and the waiting queue is
non-empty then exactly the queue front is popped and paired with that free
agent, with incoming-call and call-requested notifications, and no further
queued supplier is promoted in the same event.  (The popped id must be a
nonempty string, mirroring the JS truthiness guard; connection identifiers
are always nonempty.) -/
theorem endCall_promotes_queue_front (st : ServerState) (sid pid g nxt : Sid)
    (rest : List Sid) (rec : AgentInfo)
    (hfree : findFreeAgent (endCallClear st sid pid) = some g)
    (hqueue : (endCallClear st sid pid).waitingQueue = nxt :: rest)
    (hnz : nxt ≠ "")
    (hrec : lookupKV (endCallClear st sid pid).agents g = some rec) :
    (endCall st sid pid).1.waitingQueue = rest ∧
    lookupKV (endCall st sid pid).1.agents g = some { rec with busy := true } ∧
    lookupKV (endCall st sid pid).1.pairings nxt = some g ∧
    lookupKV (endCall st sid pid).1.pairings g = some nxt ∧
    (endCall st sid pid).2 =
      [(pid, Msg.callEnded sid), (g, Msg.incomingCall nxt), (nxt, Msg.callRequested g)] := by
  have hres : endCallPromote (endCallClear st sid pid) =
      ({ endCallClear st sid pid with
          waitingQueue := rest,
          agents := setBusy (endCallClear st sid pid).agents g true,
          pairings := upsert (upsert (endCallClear st sid pid).pairings g nxt) nxt g },
       [(g, Msg.incomingCall nxt), (nxt, Msg.callRequested g)]) := by
    simp only [endCallPromote, hfree, hqueue, if_pos hnz]
  have hec : endCall st sid pid =
      ((endCallPromote (endCallClear st sid pid)).1,
        (pid, Msg.callEnded sid) :: (endCallPromote (endCallClear st sid pid)).2) := rfl
  rw [hec, hres]
  refine ⟨rfl, ?_, ?_, ?_, rfl⟩
  · rw [lookupKV_setBusy_self, hrec]
    rfl
  · exact lookupKV_upsert_self _ _ _
  · by_cases hgn : g = nxt
    · subst hgn
      exact lookupKV_upsert_self _ _ _
    · rw [lookupKV_upsert_ne _ _ _ _ hgn]
      exact lookupKV_upsert_self _ _ _

/-- Witness for C7 at a concrete input: A ends its call with S1 while S2 is
queued and no other agent exists (spec Scenario 4). -/
theorem endCall_promotes_queue_front_witness :
    findFreeAgent (endCallClear stW7 "A" "S1") = some "A" ∧
    (endCallClear stW7 "A" "S1").waitingQueue = "S2" :: [] ∧
    "S2" ≠ "" ∧
    lookupKV (endCallClear stW7 "A" "S1").agents "A" = some { name := "a", busy := false } ∧
    ((endCall stW7 "A" "S1").1.waitingQueue = [] ∧
     lookupKV (endCall stW7 "A" "S1").1.agents "A" = some { name := "a", busy := true } ∧
     lookupKV (endCall stW7 "A" "S1").1.pairings "S2" = some "A" ∧
     lookupKV (endCall stW7 "A" "S1").1.pairings "A" = some "S2" ∧
     (endCall stW7 "A" "S1").2 =
       [("S1", Msg.callEnded "A"), ("A", Msg.incomingCall "S2"), ("S2", Msg.callRequested "A")]) :=
  ⟨by decide, by decide, by decide, by decide,
   endCall_promotes_queue_front stW7 "A" "S1" "A" "S2" [] { name := "a", busy := false }
     (by decide) (by decide) (by decide) (by decide)⟩

/-- Counterexample to claim C1 as stated: after register A, supplier-call S,
register B, supplier-call S — all events the spec considers ordinary — the
rest state has pairings A maps to S while S maps to B, so symmetry fails at
rest between handled events. -/
theorem pairings_symmetry_fails_at_rest :
    Reachable (runEvents initialState traceC1) ∧
    ¬ PairingsSymmetric (runEvents initialState traceC1) := by
  refine ⟨⟨traceC1, rfl⟩, fun h => ?_⟩
  have h2 := h "A" "S" (by decide)
  exact absurd h2 (by decide)

/-- Claim C1 amended: a pairing write installs both directions within the
same handled event (here for agent-accept from a registered agent), but
symmetry is not an invariant of rest states, because re-pairing an
already-paired supplier leaves the former partner's reverse entry dangling. -/
theorem agentAccept_pair_mutual (st : ServerState) (sid supplierId : Sid)
    (h : (lookupKV st.agents sid).isSome = true) :
    lookupKV (agentAccept st sid supplierId).1.pairings supplierId = some sid ∧
    lookupKV (agentAccept st sid supplierId).1.pairings sid = some supplierId := by
  have hres : agentAccept st sid supplierId =
      ({ st with pairings := upsert (upsert st.pairings supplierId sid) sid supplierId,
                 agents := setBusy st.agents sid true },
       [(supplierId, Msg.callAccepted sid), (sid, Msg.callStarted supplierId)]) := by
    simp only [agentAccept, h, if_true]
  rw [hres]
  constructor
  · by_cases hss : supplierId = sid
    · subst hss
      exact lookupKV_upsert_self _ _ _
    · rw [lookupKV_upsert_ne _ _ _ _ hss]
      exact lookupKV_upsert_self _ _ _
  · exact lookupKV_upsert_self _ _ _

/-- Witness for the amended C1 at a concrete input: registered agent A
accepts supplier S2. -/
theorem agentAccept_pair_mutual_witness :
    (lookupKV stW6.agents "A").isSome = true ∧
    (lookupKV (agentAccept stW6 "A" "S2").1.pairings "S2" = some "A" ∧
     lookupKV (agentAccept stW6 "A" "S2").1.pairings "A" = some "S2") :=
  ⟨by decide, agentAccept_pair_mutual stW6 "A" "S2" (by decide)⟩

/-- Counterexample to claim C2 as stated: A is the only registered agent and
is paired with S; when A rejects S, the handler first clears A's busy flag,
so the free-agent search finds A itself: the supplier is re-offered to the
rejecting agent (incoming-call to A), the queue stays empty and no
queue-status is sent. -/
theorem agentReject_sole_agent_counterexample :
    Reachable stC2 ∧
    stC2.agents = [("A", { name := "Alice", busy := true })] ∧
    (agentReject stC2 "A" "S").1.waitingQueue = [] ∧
    (agentReject stC2 "A" "S").2 =
      [("A", Msg.incomingCall "S"), ("S", Msg.callRequested "A")] :=
  ⟨⟨traceC2pre, rfl⟩, by decide, by decide, by decide⟩

/-- Claim C2 amended: when an agent rejects a supplier and that agent is the
only registered agent, the handler clears the rejecting agent's busy flag,
the free-agent search then finds the rejecting agent itself, and the supplier
is immediately re-offered to the same agent (busy set back to true, mutual
pairing rewritten, incoming-call and call-requested emitted); the waiting
queue is unchanged and no queue-status is emitted. -/
theorem agentReject_sole_agent_reoffers (st : ServerState) (r s : Sid) (rec : AgentInfo)
    (hsole : st.agents = [(r, rec)]) :
    lookupKV (agentReject st r s).1.agents r = some { rec with busy := true } ∧
    lookupKV (agentReject st r s).1.pairings s = some r ∧
    lookupKV (agentReject st r s).1.pairings r = some s ∧
    (agentReject st r s).1.waitingQueue = st.waitingQueue ∧
    (agentReject st r s).2 = [(r, Msg.incomingCall s), (s, Msg.callRequested r)] := by
  have ha1 : (if (lookupKV st.agents r).isSome then setBusy st.agents r false else st.agents)
      = [(r, { rec with busy := false })] := by
    rw [hsole]
    simp [lookupKV, setBusy]
  have hres : agentReject st r s =
      ({ st with
          agents := setBusy [(r, { rec with busy := false })] r true,
          pairings := upsert (upsert st.pairings s r) r s },
       [(r, Msg.incomingCall s), (s, Msg.callRequested r)]) := by
    simp only [agentReject, ha1, findFreeAgent, findFreeKey]
    simp
  rw [hres]
  refine ⟨?_, ?_, ?_, rfl, rfl⟩
  · rw [lookupKV_setBusy_self]
    simp [lookupKV]
  · by_cases hsr : s = r
    · subst hsr
      exact lookupKV_upsert_self _ _ _
    · rw [lookupKV_upsert_ne _ _ _ _ hsr]
      exact lookupKV_upsert_self _ _ _
  · exact lookupKV_upsert_self _ _ _

/-- Witness for the amended C2 at a concrete input: the sole agent A,
paired with S, rejects S. -/
theorem agentReject_sole_agent_reoffers_witness :
    stC2.agents = [("A", { name := "Alice", busy := true })] ∧
    (lookupKV (agentReject stC2 "A" "S").1.agents "A" = some { name := "Alice", busy := true } ∧
     lookupKV (agentReject stC2 "A" "S").1.pairings "S" = some "A" ∧
     lookupKV (agentReject stC2 "A" "S").1.pairings "A" = some "S" ∧
     (agentReject stC2 "A" "S").1.waitingQueue = stC2.waitingQueue ∧
     (agentReject stC2 "A" "S").2 = [("A", Msg.incomingCall "S"), ("S", Msg.callRequested "A")]) :=
  ⟨by decide,
   agentReject_sole_agent_reoffers stC2 "A" "S" { name := "Alice", busy := true } (by decide)⟩

/-- Counterexample to claim C3 as stated: after register A, register B,
supplier-call from B (a registered agent acting as a supplier), the rest
state has B as a key of the pairing table while its busy flag is false. -/
theorem busy_iff_paired_fails_at_rest :
    Reachable (runEvents initialState traceC3) ∧
    ¬ BusyIffPaired (runEvents initialState traceC3) := by
  refine ⟨⟨traceC3, rfl⟩, fun h => ?_⟩
  have h2 := h "B" { name := "Bob", busy := false } (by decide)
  have h3 := h2.mpr (by decide)
  exact absurd h3 (by decide)

/-- Claim C3 amended: a match sets busy true only on the agent side of the new
pairing, so busy-iff-paired is not an invariant: whenever a registered,
non-busy connection s issues supplier-call and is matched as the supplier side
with a distinct free agent, s becomes a pairing key while its busy flag stays
false, violating busy-iff-paired in the resulting rest state. -/
theorem supplier_side_agent_breaks_busy_iff_paired (st : ServerState) (s g : Sid)
    (rec : AgentInfo) (hq : s ∉ st.waitingQueue) (hg : findFreeAgent st = some g)
    (hgs : g ≠ s) (hrec : lookupKV st.agents s = some rec) (hbusy : rec.busy = false) :
    ¬ BusyIffPaired (supplierCall st s).1 := by
  intro h
  have hres : supplierCall st s =
      ({ st with agents := setBusy st.agents g true,
                 pairings := upsert (upsert st.pairings s g) g s },
       [(g, Msg.incomingCall s), (s, Msg.callRequested g)]) := by
    simp only [supplierCall, if_neg hq, hg]
  have hs : lookupKV (supplierCall st s).1.agents s = some rec := by
    rw [hres]
    show lookupKV (setBusy st.agents g true) s = some rec
    rw [lookupKV_setBusy_ne _ _ _ _ (Ne.symm hgs)]
    exact hrec
  have hp : lookupKV (supplierCall st s).1.pairings s = some g := by
    rw [hres]
    show lookupKV (upsert (upsert st.pairings s g) g s) s = some g
    rw [lookupKV_upsert_ne _ _ _ _ (Ne.symm hgs)]
    exact lookupKV_upsert_self _ _ _
  have h2 := (h s rec hs).mpr (by rw [hp]; rfl)
  rw [hbusy] at h2
  exact absurd h2 (by decide)

/-- Witness for the amended C3 at a concrete input: registered agent B calls
as a supplier while agent A is free. -/
theorem supplier_side_agent_breaks_busy_iff_paired_witness :
    ("B" ∉ stW3.waitingQueue) ∧ findFreeAgent stW3 = some "A" ∧ "A" ≠ "B" ∧
    lookupKV stW3.agents "B" = some { name := "Bob", busy := false } ∧
    ({ name := "Bob", busy := false } : AgentInfo).busy = false ∧
    ¬ BusyIffPaired (supplierCall stW3 "B").1 :=
  ⟨by decide, by decide, by decide, by decide, by decide,
   supplier_side_agent_breaks_busy_iff_paired stW3 "B" "A" { name := "Bob", busy := false }
     (by decide) (by decide) (by decide) (by decide) (by decide)⟩

/-- Counterexample to claim C4 as stated: after register A, supplier-call S
(S is paired with A), supplier-call S again (A busy, no free agent), the rest
state has S both in the waiting queue and as a key of the pairing table. -/
theorem queue_pairing_exclusivity_fails_at_rest :
    Reachable (runEvents initialState traceC4) ∧
    ¬ QueuePairingExclusive (runEvents initialState traceC4) := by
  refine ⟨⟨traceC4, rfl⟩, fun h => ?_⟩
  have h2 := h "S" (by decide)
  exact absurd h2 (by decide)

/-- Claim C4 amended: the enqueue branch of supplier-call checks only queue
membership, not pairing membership: a supplier that is already a pairing key
and not queued, calling when no agent is free, is appended to the queue while
its pairing entry remains, so queue/pairing exclusivity is not an invariant. -/
theorem supplierCall_enqueues_paired_supplier (st : ServerState) (s a : Sid)
    (hq : s ∉ st.waitingQueue) (hfree : findFreeAgent st = none)
    (hp : lookupKV st.pairings s = some a) :
    s ∈ (supplierCall st s).1.waitingQueue ∧
    lookupKV (supplierCall st s).1.pairings s = some a := by
  have hres : supplierCall st s =
      ({ st with waitingQueue := st.waitingQueue ++ [s] },
       [(s, Msg.queueStatus (st.waitingQueue.length + 1))]) := by
    simp only [supplierCall, if_neg hq, hfree]
  rw [hres]
  exact ⟨by simp, hp⟩

/-- Witness for the amended C4 at a concrete input: S is paired with busy
agent A and calls again. -/
theorem supplierCall_enqueues_paired_supplier_witness :
    ("S" ∉ stW4.waitingQueue) ∧ findFreeAgent stW4 = none ∧
    lookupKV stW4.pairings "S" = some "A" ∧
    ("S" ∈ (supplierCall stW4 "S").1.waitingQueue ∧
     lookupKV (supplierCall stW4 "S").1.pairings "S" = some "A") :=
  ⟨by decide, by decide, by decide,
   supplierCall_enqueues_paired_supplier stW4 "S" "A" (by decide) (by decide) (by decide)⟩

/-- Counterexample to claim C5 as stated: after register A, supplier-call S,
supplier-call S (S queued while still paired with A), disconnect A — the
disconnect requeue is not guarded by a membership check, so the rest state's
waiting queue contains S twice. -/
theorem queue_uniqueness_fails :
    Reachable (runEvents initialState traceC5) ∧
    ¬ QueueUnique (runEvents initialState traceC5) := by
  refine ⟨⟨traceC5, rfl⟩, fun h => ?_⟩
  have h2 : (runEvents initialState traceC5).waitingQueue.Nodup := h
  exact absurd h2 (by decide)

/-- Claim C5 amended: the supplier-call and agent-reject enqueues are guarded
by a queue-membership check (shown here for agent-reject: a supplier that is
already queued is not pushed again, the queue is unchanged and only its
current position is re-emitted), but the disconnect handler's requeue is
unguarded and can duplicate an already-queued identifier, so queue uniqueness
is not an invariant under every event sequence. -/
theorem agentReject_requeue_guarded (st : ServerState) (r s : Sid)
    (hr : lookupKV st.agents r = none) (hfree : findFreeAgent st = none)
    (hmem : s ∈ st.waitingQueue) :
    (agentReject st r s).1.waitingQueue = st.waitingQueue ∧
    (agentReject st r s).2 = [(s, Msg.queueStatus (st.waitingQueue.indexOf s + 1))] := by
  have hfree2 : findFreeKey st.agents = none := hfree
  simp [agentReject, findFreeAgent, hr, hfree2, hmem]

/-- Witness for the amended C5 at a concrete input: an unregistered sender X
rejects the already-queued supplier S3 while no agent is free. -/
theorem agentReject_requeue_guarded_witness :
    lookupKV stW5.agents "X" = none ∧ findFreeAgent stW5 = none ∧
    ("S3" ∈ stW5.waitingQueue) ∧
    ((agentReject stW5 "X" "S3").1.waitingQueue = stW5.waitingQueue ∧
     (agentReject stW5 "X" "S3").2 =
       [("S3", Msg.queueStatus (stW5.waitingQueue.indexOf "S3" + 1))]) :=
  ⟨by decide, by decide, by decide,
   agentReject_requeue_guarded stW5 "X" "S3" (by decide) (by decide) (by decide)⟩
